import Mathlib

/-!
Verification of the Claude CLI provider adapter (`src/adapters/claude-cli.ts`)
of the Persuader repository.

The adapter is embedded shallowly: pure string-processing methods become Lean
functions; the asynchronous subprocess interaction of `spawnWithStdin` becomes
a function of the one event that decides the promise (process close, timeout
firing, process error, missing stdin); the external modules the adapter imports
(the response-schema parser, content extractor and token-usage reader, which
are not part of the analysed sources) become oracle fields of an `Env` record,
universally quantified in the theorems.
-/

/-- Embedding of JavaScript `String.prototype.includes`: `containsSubstr s pat`
is true when `pat` occurs as a contiguous substring of `s`. -/
def containsSubstr (s pat : String) : Bool :=
  s.toList.tails.any (fun t => pat.toList.isPrefixOf t)

/-- Embedding of JavaScript `String.prototype.toLowerCase`, character by
character. All substring patterns the adapter matches are ASCII, where
`Char.toLower` agrees with the JavaScript behaviour. -/
def jsToLower (s : String) : String :=
  String.mk (s.toList.map Char.toLower)

/-- A JavaScript value thrown or rejected with: either an `Error` instance
carrying a message, or any other value (whose string rendering is kept). -/
inductive JSError where
  | error (message : String)
  | other (repr : String)
deriving DecidableEq

/-- Embedding of the pervasive pattern
`error instanceof Error ? error.message : 'Unknown error'`. -/
def jsMessage : JSError → String
  | .error m => m
  | .other _ => "Unknown error"

/-- Modelled from the spec: the shared-constants module is not among the
analysed sources; this is the standard HTTP 429 status the spec's
rate-limit classification refers to. -/
def HTTP_TOO_MANY_REQUESTS : Nat := 429

/-- Modelled from the spec: standard HTTP 502 status (transient network fault
class of the spec's classification). -/
def HTTP_BAD_GATEWAY : Nat := 502

/-- Modelled from the spec: standard HTTP 503 status (transient network fault
class of the spec's classification). -/
def HTTP_SERVICE_UNAVAILABLE : Nat := 503

/-- Modelled from the spec: standard HTTP 504 status (transient network fault
class of the spec's classification). -/
def HTTP_GATEWAY_TIMEOUT : Nat := 504

/-- Modelled from the spec: standard HTTP 401 status (authentication-failure
class of the spec's classification). -/
def HTTP_UNAUTHORIZED : Nat := 401

/-- The models listed in `ClaudeCLIAdapter.supportedModels`. -/
def supportedModels : List String :=
  ["claude-3-5-sonnet-20241022",
   "claude-3-5-haiku-20241022",
   "claude-3-opus-20240229",
   "claude-3-sonnet-20240229",
   "claude-3-haiku-20240307",
   "sonnet",
   "haiku",
   "opus"]

/-- The adapter's configuration state (`binary`, `timeout`, `maxBuffer`), the
only fields of the `ClaudeCLIAdapter` class; all are `readonly`. -/
structure ClaudeCLIAdapter where
  binary : String
  timeout : Nat
  maxBuffer : Nat
deriving DecidableEq

/-- Embedding of `ClaudeCLIAdapter.isRetryableError`: a non-`Error` value is
never retryable; an `Error` is retryable when its lowercased message contains
one of the transient markers. -/
def isRetryableError : JSError → Bool
  | .other _ => false
  | .error msg =>
    let message := jsToLower msg
    containsSubstr message "timeout" ||
    containsSubstr message "rate limit" ||
    containsSubstr message (toString HTTP_TOO_MANY_REQUESTS) ||
    containsSubstr message (toString HTTP_BAD_GATEWAY) ||
    containsSubstr message (toString HTTP_SERVICE_UNAVAILABLE) ||
    containsSubstr message (toString HTTP_GATEWAY_TIMEOUT) ||
    containsSubstr message "econnreset" ||
    containsSubstr message "enotfound" ||
    containsSubstr message "exit code 1" ||
    containsSubstr message "session corruption" ||
    containsSubstr message "context length exceeded"

/-- Embedding of `ClaudeCLIAdapter.enhanceError`: returns the message of the
new `Error` the method builds, matching each pattern branch of the source in
order. -/
def enhanceError (a : ClaudeCLIAdapter) (error : JSError) (context : String) : String :=
  let originalMessage := match error with | .error m => m | .other r => r
  if containsSubstr originalMessage "command not found" then
    context ++ ": Claude CLI not found. Please install it with: npm install -g @anthropic-ai/claude-cli"
  else if containsSubstr originalMessage "ETIMEDOUT" || containsSubstr originalMessage "timed out" then
    context ++ ": Claude CLI timed out after " ++ toString a.timeout ++ "ms. The request may be too complex or the service may be slow."
  else if containsSubstr originalMessage "rate limit" || containsSubstr originalMessage (toString HTTP_TOO_MANY_REQUESTS) then
    context ++ ": Claude API rate limit exceeded. Please wait and try again."
  else if containsSubstr originalMessage "unauthorized" || containsSubstr originalMessage "authentication" || containsSubstr originalMessage (toString HTTP_UNAUTHORIZED) then
    context ++ ": Claude CLI authentication failed. Please run: claude auth login"
  else if containsSubstr originalMessage "session" && containsSubstr originalMessage "not found" then
    context ++ ": Session expired or not found. A new session will be created automatically."
  else if containsSubstr originalMessage "model" && containsSubstr originalMessage "not found" then
    context ++ ": Invalid model specified. Supported models: " ++ String.intercalate ", " supportedModels
  else if containsSubstr originalMessage "ENOBUFS" || containsSubstr originalMessage "maxBuffer" then
    context ++ ": Response too large (exceeds " ++ toString a.maxBuffer ++ " bytes). Try reducing max_tokens or splitting the request."
  else
    context ++ ": " ++ originalMessage

/-- C2: an error whose message matches one of the fatal patterns
(authentication failure via "unauthorized"/"authentication"/"401", an
invalid model via "model"+"not found", or response-too-large via
"ENOBUFS"/"maxBuffer") and which contains none of the retryable markers is
classified non-retryable by `isRetryableError`. -/
theorem isRetryableError_fatal_not_retried (msg : String)
    (hfatal : (containsSubstr msg "unauthorized" ||
               containsSubstr msg "authentication" ||
               containsSubstr msg (toString HTTP_UNAUTHORIZED) ||
               (containsSubstr msg "model" && containsSubstr msg "not found") ||
               containsSubstr msg "ENOBUFS" ||
               containsSubstr msg "maxBuffer") = true)
    (hnone : containsSubstr (jsToLower msg) "timeout" = false ∧
             containsSubstr (jsToLower msg) "rate limit" = false ∧
             containsSubstr (jsToLower msg) (toString HTTP_TOO_MANY_REQUESTS) = false ∧
             containsSubstr (jsToLower msg) (toString HTTP_BAD_GATEWAY) = false ∧
             containsSubstr (jsToLower msg) (toString HTTP_SERVICE_UNAVAILABLE) = false ∧
             containsSubstr (jsToLower msg) (toString HTTP_GATEWAY_TIMEOUT) = false ∧
             containsSubstr (jsToLower msg) "econnreset" = false ∧
             containsSubstr (jsToLower msg) "enotfound" = false ∧
             containsSubstr (jsToLower msg) "exit code 1" = false ∧
             containsSubstr (jsToLower msg) "session corruption" = false ∧
             containsSubstr (jsToLower msg) "context length exceeded" = false) :
    isRetryableError (.error msg) = false := by
  obtain ⟨h1, h2, h3, h4, h5, h6, h7, h8, h9, h10, h11⟩ := hnone
  simp [isRetryableError, h1, h2, h3, h4, h5, h6, h7, h8, h9, h10, h11]

/-- Witness for `isRetryableError_fatal_not_retried`: the adapter's own
enhanced authentication-failure message is non-retryable. -/
theorem isRetryableError_fatal_not_retried_witness :
    isRetryableError (.error "Failed to send prompt to Claude CLI: Claude CLI authentication failed. Please run: claude auth login") = false :=
  isRetryableError_fatal_not_retried
    "Failed to send prompt to Claude CLI: Claude CLI authentication failed. Please run: claude auth login"
    (by decide) (by decide)

/-- The event that decides the promise inside `spawnWithStdin`: the child
process closes with an exit code, the per-call timeout fires first, the
process emits an `error` event, or the child has no accessible stdin. -/
inductive SpawnEvent where
  | close (code : Int)
  | timeoutFired
  | procError (e : JSError)
  | noStdin
deriving DecidableEq

/-- Outcome of a `spawnWithStdin` run: how the promise settles, and whether
`child.kill()` was invoked. -/
structure SpawnOutcome where
  result : Except JSError (String × String)
  childKilled : Bool

/-- Embedding of `ClaudeCLIAdapter.spawnWithStdin`. The accumulated `stdout`
and `stderr` of the child and the deciding event are inputs; the source's
`finished` flag, which lets exactly one event settle the promise, is embedded
by taking that single deciding event. String length counts characters, which
agrees with the JavaScript `length` on the ASCII inputs at issue. -/
def spawnWithStdin (a : ClaudeCLIAdapter) (ev : SpawnEvent)
    (stdout stderr : String) (input : String) : SpawnOutcome :=
  match ev with
  | .timeoutFired =>
    { result := .error (.error ("Claude CLI command timed out after " ++ toString a.timeout ++ "ms"))
      childKilled := true }
  | .close code =>
    if code = 0 then
      { result := .ok (stdout, stderr), childKilled := false }
    else
      let base := "Claude CLI command failed with exit code " ++ toString code
      let withCause :=
        if code = 1 then
          if input.length > 10000 then
            base ++ " (likely cause: context length exceeded with " ++ toString input.length ++ " character prompt - consider using Claude Sonnet instead of Haiku for large prompts)"
          else
            base ++ " (possible causes: session corruption, rate limiting, or API authentication issues)"
        else base
      { result := .error (.error (withCause ++ ": " ++ (if stderr.isEmpty then "No error output" else stderr)))
        childKilled := false }
  | .procError e => { result := .error e, childKilled := false }
  | .noStdin =>
    { result := .error (.error "Failed to access stdin of Claude CLI process")
      childKilled := false }

/-- Modelled from the spec: the parsed Claude CLI JSON response. The schema
module defining it is not among the analysed sources; the adapter reads its
`is_error` and `session_id` fields and extracts content from its payload. -/
structure ClaudeCLIResponse where
  is_error : Bool
  session_id : String
  result : String
deriving DecidableEq

/-- Modelled from the spec: token usage as reported per provider call. -/
structure TokenUsage where
  inputTokens : Nat
  outputTokens : Nat
  totalTokens : Nat
deriving DecidableEq

/-- The external collaborators the adapter imports from modules outside the
analysed sources, as oracles: `parseClaudeCLIResponse` (which may throw, hence
`Except`), `extractContentFromResponse`, `getTokenUsage`, and the
`DEFAULT_MODEL` constant. -/
structure Env where
  parse : String → Except JSError ClaudeCLIResponse
  extractContent : ClaudeCLIResponse → String
  tokenUsage : ClaudeCLIResponse → TokenUsage
  defaultModel : String

/-- Prompt options received by `sendPrompt` (`ProviderPromptOptions` fields the
adapter reads). -/
structure PromptOptions where
  model : Option String
  maxTokens : Option Nat
  temperature : Option Rat
deriving DecidableEq

/-- The metadata subset of the adapter's `ProviderResponse` that the claims
mention (the source additionally echoes cost and the raw response). -/
structure ProviderResponseMetadata where
  sessionId : String
  model : String
  jsonMode : Bool
deriving DecidableEq

/-- The value `sendPrompt` resolves to. -/
structure ProviderResponse where
  content : String
  tokenUsage : TokenUsage
  metadata : ProviderResponseMetadata
  truncated : Bool
  stopReason : String
deriving DecidableEq

/-- The argument list `sendPrompt` builds for the CLI invocation. -/
def sendPromptArgs (sessionId : Option String) (options : PromptOptions) : List String :=
  ["--output-format", "json", "--max-turns", "0"] ++
  (match sessionId with | some sid => ["--resume", sid] | none => []) ++
  (match options.model, sessionId with
   | some m, none => ["--model", m]
   | _, _ => [])

/-- Embedding of `ClaudeCLIAdapter.sendPrompt`: runs the CLI via
`spawnWithStdin` with the prompt on stdin, parses the JSON output, rejects on
an `is_error` response, and otherwise resolves with the extracted content,
token usage, metadata and stop reason. Every failure is rethrown through
`enhanceError` with the context `Failed to send prompt to Claude CLI`. -/
def sendPrompt (a : ClaudeCLIAdapter) (env : Env) (sessionId : Option String)
    (prompt : String) (options : PromptOptions)
    (ev : SpawnEvent) (stdout stderr : String) : Except JSError ProviderResponse :=
  match (spawnWithStdin a ev stdout stderr prompt).result with
  | .error e =>
    .error (.error (enhanceError a e "Failed to send prompt to Claude CLI"))
  | .ok (out, _errOut) =>
    match env.parse out with
    | .error e =>
      .error (.error (enhanceError a e "Failed to send prompt to Claude CLI"))
    | .ok claudeResponse =>
      if claudeResponse.is_error then
        .error (.error (enhanceError a
          (.error ("Claude CLI error: " ++ env.extractContent claudeResponse))
          "Failed to send prompt to Claude CLI"))
      else
        .ok { content := env.extractContent claudeResponse
              tokenUsage := env.tokenUsage claudeResponse
              metadata := { sessionId := claudeResponse.session_id
                            model := options.model.getD env.defaultModel
                            jsonMode := true }
              truncated := false
              stopReason := "end_turn" }

/-- C1: the message produced by the adapter's own per-call timeout is exactly
the one `spawnWithStdin` rejects with, yet `isRetryableError` classifies it as
NOT retryable: the classifier looks for the substring "timeout" while the
message says "timed out". A message that does contain "timeout" is classified
retryable, confirming the marker itself works. -/
theorem claude_cli_timeout_message_not_retryable :
    (spawnWithStdin ⟨"claude", 30000, 10485760⟩ .timeoutFired "" "" "prompt").result
      = .error (.error "Claude CLI command timed out after 30000ms") ∧
    isRetryableError (.error "Claude CLI command timed out after 30000ms") = false ∧
    isRetryableError (.error "Request timeout") = true := by
  refine ⟨rfl, by decide, by decide⟩

/-- C6: when the per-call timeout fires before the child process completes,
the child is killed, the spawn promise rejects with the timeout error, and a
`sendPrompt` call built on that spawn outcome rejects with the enhanced form
of that timeout error (which the retry classifier is then applied to) rather
than resolving. -/
theorem spawn_timeout_kills_and_fails (a : ClaudeCLIAdapter) (env : Env)
    (sessionId : Option String) (prompt : String) (options : PromptOptions)
    (stdout stderr : String) :
    (spawnWithStdin a .timeoutFired stdout stderr prompt).childKilled = true ∧
    (spawnWithStdin a .timeoutFired stdout stderr prompt).result =
      .error (.error ("Claude CLI command timed out after " ++ toString a.timeout ++ "ms")) ∧
    sendPrompt a env sessionId prompt options .timeoutFired stdout stderr =
      .error (.error (enhanceError a
        (.error ("Claude CLI command timed out after " ++ toString a.timeout ++ "ms"))
        "Failed to send prompt to Claude CLI")) :=
  ⟨rfl, rfl, rfl⟩

/-- The spawn promise resolves exactly when the process closes with exit
code 0, and then it carries the accumulated stdout and stderr. -/
theorem spawnWithStdin_ok_iff (a : ClaudeCLIAdapter) (ev : SpawnEvent)
    (stdout stderr input : String) (p : String × String) :
    (spawnWithStdin a ev stdout stderr input).result = .ok p ↔
      (ev = .close 0 ∧ p = (stdout, stderr)) := by
  cases ev with
  | close code =>
    by_cases hc : code = 0
    · subst hc
      simp [spawnWithStdin, eq_comm]
    · simp [spawnWithStdin, hc]
  | timeoutFired => simp [spawnWithStdin]
  | procError e => simp [spawnWithStdin]
  | noStdin => simp [spawnWithStdin]

/-- When the spawn promise rejects with `e`, `sendPrompt` rejects with the
enhanced form of `e`. -/
theorem sendPrompt_spawn_error (a : ClaudeCLIAdapter) (env : Env)
    (sessionId : Option String) (prompt : String) (options : PromptOptions)
    (ev : SpawnEvent) (stdout stderr : String) (e : JSError)
    (h : (spawnWithStdin a ev stdout stderr prompt).result = .error e) :
    sendPrompt a env sessionId prompt options ev stdout stderr =
      .error (.error (enhanceError a e "Failed to send prompt to Claude CLI")) := by
  unfold sendPrompt
  rw [h]

/-- On a clean exit (code 0), `sendPrompt` reduces to the parse of the
accumulated stdout followed by the `is_error` check. -/
theorem sendPrompt_close_zero (a : ClaudeCLIAdapter) (env : Env)
    (sessionId : Option String) (prompt : String) (options : PromptOptions)
    (stdout stderr : String) :
    sendPrompt a env sessionId prompt options (.close 0) stdout stderr =
      match env.parse stdout with
      | .error e =>
        .error (.error (enhanceError a e "Failed to send prompt to Claude CLI"))
      | .ok claudeResponse =>
        if claudeResponse.is_error then
          .error (.error (enhanceError a
            (.error ("Claude CLI error: " ++ env.extractContent claudeResponse))
            "Failed to send prompt to Claude CLI"))
        else
          .ok { content := env.extractContent claudeResponse
                tokenUsage := env.tokenUsage claudeResponse
                metadata := { sessionId := claudeResponse.session_id
                              model := options.model.getD env.defaultModel
                              jsonMode := true }
                truncated := false
                stopReason := "end_turn" } := rfl

/-- C5: `sendPrompt` resolves exactly when the process exits with code 0, the
output parses, and the parsed response does not carry `is_error`; in that case
the resolved value carries the extracted content, the token usage, the
metadata and the `end_turn` stop reason. In every other case — non-zero exit,
timeout, process or stdin failure, unparsable output, or an `is_error`
response — it rejects, and the rejection value is always a proper `Error`
carrying a message. -/
theorem sendPrompt_rejects_iff_invocation_fails
    (a : ClaudeCLIAdapter) (env : Env) (sessionId : Option String)
    (prompt : String) (options : PromptOptions) (ev : SpawnEvent)
    (stdout stderr : String) :
    ((∃ r, sendPrompt a env sessionId prompt options ev stdout stderr = .ok r) ↔
      (ev = .close 0 ∧ ∃ resp, env.parse stdout = .ok resp ∧ resp.is_error = false)) ∧
    (∀ resp, ev = .close 0 → env.parse stdout = .ok resp → resp.is_error = false →
      sendPrompt a env sessionId prompt options ev stdout stderr = .ok
        { content := env.extractContent resp
          tokenUsage := env.tokenUsage resp
          metadata := { sessionId := resp.session_id
                        model := options.model.getD env.defaultModel
                        jsonMode := true }
          truncated := false
          stopReason := "end_turn" }) ∧
    (∀ e, sendPrompt a env sessionId prompt options ev stdout stderr = .error e →
      ∃ m, e = .error m) := by
  have hclose : ∀ (resp : ClaudeCLIResponse), ev = .close 0 →
      env.parse stdout = .ok resp → resp.is_error = false →
      sendPrompt a env sessionId prompt options ev stdout stderr = .ok
        { content := env.extractContent resp
          tokenUsage := env.tokenUsage resp
          metadata := { sessionId := resp.session_id
                        model := options.model.getD env.defaultModel
                        jsonMode := true }
          truncated := false
          stopReason := "end_turn" } := by
    intro resp hev hp hbe
    subst hev
    rw [sendPrompt_close_zero, hp]
    simp [hbe]
  refine ⟨⟨?_, ?_⟩, hclose, ?_⟩
  · rintro ⟨r, hr⟩
    rcases hres : (spawnWithStdin a ev stdout stderr prompt).result with e | p
    · rw [sendPrompt_spawn_error a env sessionId prompt options ev stdout stderr e hres] at hr
      exact absurd hr (by simp)
    · obtain ⟨hev, hp⟩ := (spawnWithStdin_ok_iff a ev stdout stderr prompt p).mp hres
      subst hp
      refine ⟨hev, ?_⟩
      subst hev
      rw [sendPrompt_close_zero] at hr
      rcases hparse : env.parse stdout with e | resp
      · rw [hparse] at hr
        exact absurd hr (by simp)
      · rw [hparse] at hr
        dsimp only at hr
        cases hbe : resp.is_error with
        | false => exact ⟨resp, rfl, hbe⟩
        | true =>
          rw [if_pos hbe] at hr
          exact absurd hr (by simp)
  · rintro ⟨hev, resp, hp, hbe⟩
    exact ⟨_, hclose resp hev hp hbe⟩
  · intro e he
    rcases hres : (spawnWithStdin a ev stdout stderr prompt).result with e0 | p
    · have h2 := (sendPrompt_spawn_error a env sessionId prompt options ev stdout stderr e0 hres).symm.trans he
      injection h2 with h3
      exact ⟨_, h3.symm⟩
    · obtain ⟨hev, hp⟩ := (spawnWithStdin_ok_iff a ev stdout stderr prompt p).mp hres
      subst hp
      subst hev
      rw [sendPrompt_close_zero] at he
      rcases hparse : env.parse stdout with e1 | resp
      · rw [hparse] at he
        injection he with h3
        exact ⟨_, h3.symm⟩
      · rw [hparse] at he
        dsimp only at he
        cases hbe : resp.is_error with
        | false =>
          rw [if_neg (by simp [hbe])] at he
          exact absurd he (by simp)
        | true =>
          rw [if_pos hbe] at he
          injection he with h3
          exact ⟨_, h3.symm⟩

/-- Witness for `sendPrompt_rejects_iff_invocation_fails`: a concrete
successful run resolves with the extracted content and metadata. -/
theorem sendPrompt_rejects_iff_invocation_fails_witness :
    sendPrompt ⟨"claude", 30000, 10485760⟩
      { parse := fun out => .ok { is_error := false, session_id := "sid-1", result := out }
        extractContent := fun r => r.result
        tokenUsage := fun _ => ⟨3, 4, 7⟩
        defaultModel := "claude-3-5-sonnet-20241022" }
      none "a prompt" ⟨none, none, none⟩ (.close 0) "the output" "" = .ok
      { content := "the output"
        tokenUsage := ⟨3, 4, 7⟩
        metadata := { sessionId := "sid-1"
                      model := "claude-3-5-sonnet-20241022"
                      jsonMode := true }
        truncated := false
        stopReason := "end_turn" } := by
  have h := (sendPrompt_rejects_iff_invocation_fails ⟨"claude", 30000, 10485760⟩
    { parse := fun out => .ok { is_error := false, session_id := "sid-1", result := out }
      extractContent := fun r => r.result
      tokenUsage := fun _ => ⟨3, 4, 7⟩
      defaultModel := "claude-3-5-sonnet-20241022" }
    none "a prompt" ⟨none, none, none⟩ (.close 0) "the output" "").2.1
    { is_error := false, session_id := "sid-1", result := "the output" } rfl rfl rfl
  exact h

/-- Session options received by `createSession` (`ProviderSessionOptions`
fields the adapter reads). -/
structure SessionOptions where
  model : Option String
  temperature : Option Rat
deriving DecidableEq

/-- The argument list `createSession` builds: JSON output, the freshly
generated UUID forced via `--session-id`, and the model when specified. -/
def createSessionArgs (sessionId : String) (options : SessionOptions) : List String :=
  ["--output-format", "json", "--session-id", sessionId] ++
  (match options.model with | some m => ["--model", m] | none => [])

/-- The context `createSession` sends on stdin: the caller's context, with a
temperature instruction appended when a temperature is specified. -/
def contextWithOptions (context : String) (options : SessionOptions) : String :=
  match options.temperature with
  | some t => context ++ "\n\nPlease use a temperature of " ++ toString t ++ " for your responses."
  | none => context

/-- Embedding of `ClaudeCLIAdapter.createSession`. The locally generated
`randomUUID()` value is the `sessionId` input; the CLI run is decided by the
spawn event and accumulated output. On success the function returns
`claudeResponse.session_id` — the identifier reported by the CLI — not the
locally generated UUID. -/
def createSession (a : ClaudeCLIAdapter) (env : Env) (sessionId : String)
    (context : String) (options : SessionOptions)
    (ev : SpawnEvent) (stdout stderr : String) : Except JSError String :=
  match (spawnWithStdin a ev stdout stderr (contextWithOptions context options)).result with
  | .error e =>
    .error (.error (enhanceError a e "Failed to create Claude CLI session"))
  | .ok (out, _errOut) =>
    match env.parse out with
    | .error e =>
      .error (.error (enhanceError a e "Failed to create Claude CLI session"))
    | .ok claudeResponse =>
      if claudeResponse.is_error then
        .error (.error (enhanceError a
          (.error ("Failed to create session: " ++ env.extractContent claudeResponse))
          "Failed to create Claude CLI session"))
      else
        .ok claudeResponse.session_id

/-- On a clean exit (code 0), `createSession` reduces to the parse of the
accumulated stdout followed by the `is_error` check. -/
theorem createSession_close_zero (a : ClaudeCLIAdapter) (env : Env)
    (sessionId : String) (context : String) (options : SessionOptions)
    (stdout stderr : String) :
    createSession a env sessionId context options (.close 0) stdout stderr =
      match env.parse stdout with
      | .error e =>
        .error (.error (enhanceError a e "Failed to create Claude CLI session"))
      | .ok claudeResponse =>
        if claudeResponse.is_error then
          .error (.error (enhanceError a
            (.error ("Failed to create session: " ++ env.extractContent claudeResponse))
            "Failed to create Claude CLI session"))
        else
          .ok claudeResponse.session_id := rfl

/-- C10: on success, `createSession` hands the caller the `session_id` the CLI
reported, and that value equals the locally generated UUID passed via
`--session-id` exactly when the CLI echoes the requested identifier. -/
theorem createSession_returns_cli_reported_id (a : ClaudeCLIAdapter) (env : Env)
    (uuid context : String) (options : SessionOptions) (out err : String)
    (resp : ClaudeCLIResponse)
    (hp : env.parse out = .ok resp) (he : resp.is_error = false) :
    createSession a env uuid context options (.close 0) out err = .ok resp.session_id ∧
    (createSession a env uuid context options (.close 0) out err = .ok uuid ↔
      resp.session_id = uuid) := by
  have h1 : createSession a env uuid context options (.close 0) out err = .ok resp.session_id := by
    rw [createSession_close_zero, hp]
    simp [he]
  refine ⟨h1, ?_⟩
  rw [h1]
  simp

/-- Witness for `createSession_returns_cli_reported_id`: with a CLI that
reports `cli-id`, the call returns `cli-id`, which differs from the local
UUID `local-uuid`. -/
theorem createSession_returns_cli_reported_id_witness :
    createSession ⟨"claude", 30000, 10485760⟩
      { parse := fun _ => .ok { is_error := false, session_id := "cli-id", result := "hello" }
        extractContent := fun r => r.result
        tokenUsage := fun _ => ⟨0, 0, 0⟩
        defaultModel := "claude-3-5-sonnet-20241022" }
      "local-uuid" "a context" ⟨none, none⟩ (.close 0) "out" "" = .ok "cli-id" ∧
    (createSession ⟨"claude", 30000, 10485760⟩
      { parse := fun _ => .ok { is_error := false, session_id := "cli-id", result := "hello" }
        extractContent := fun r => r.result
        tokenUsage := fun _ => ⟨0, 0, 0⟩
        defaultModel := "claude-3-5-sonnet-20241022" }
      "local-uuid" "a context" ⟨none, none⟩ (.close 0) "out" "" = .ok "local-uuid" ↔
      ("cli-id" : String) = "local-uuid") :=
  createSession_returns_cli_reported_id ⟨"claude", 30000, 10485760⟩
    { parse := fun _ => .ok { is_error := false, session_id := "cli-id", result := "hello" }
      extractContent := fun r => r.result
      tokenUsage := fun _ => ⟨0, 0, 0⟩
      defaultModel := "claude-3-5-sonnet-20241022" }
    "local-uuid" "a context" ⟨none, none⟩ "out" ""
    { is_error := false, session_id := "cli-id", result := "hello" } rfl rfl

/-- C3 refuted: two successful `createSession` calls with the identical
context, distinct fresh local UUIDs and a CLI whose responses report one fixed
`session_id` return the SAME identifier, because the adapter returns the
CLI-reported `session_id` rather than the UUID it generated. -/
theorem createSession_identical_context_same_id_counterexample :
    createSession ⟨"claude", 30000, 10485760⟩
      { parse := fun _ => .ok { is_error := false, session_id := "cli-fixed-session", result := "hi" }
        extractContent := fun r => r.result
        tokenUsage := fun _ => ⟨0, 0, 0⟩
        defaultModel := "claude-3-5-sonnet-20241022" }
      "11111111-1111-1111-1111-111111111111" "shared context" ⟨none, none⟩
      (.close 0) "out" "" = .ok "cli-fixed-session" ∧
    createSession ⟨"claude", 30000, 10485760⟩
      { parse := fun _ => .ok { is_error := false, session_id := "cli-fixed-session", result := "hi" }
        extractContent := fun r => r.result
        tokenUsage := fun _ => ⟨0, 0, 0⟩
        defaultModel := "claude-3-5-sonnet-20241022" }
      "22222222-2222-2222-2222-222222222222" "shared context" ⟨none, none⟩
      (.close 0) "out" "" = .ok "cli-fixed-session" ∧
    ("11111111-1111-1111-1111-111111111111" : String) ≠
      "22222222-2222-2222-2222-222222222222" := by
  refine ⟨rfl, rfl, by decide⟩

/-- C3 amended: each of two consecutive `createSession` calls with identical
context passes its own freshly generated UUID via `--session-id`, and when the
CLI honors that flag (reports back the requested identifier) the two returned
session identifiers are distinct. -/
theorem createSession_fresh_uuid_distinct_ids (a : ClaudeCLIAdapter) (env : Env)
    (u1 u2 context : String) (options : SessionOptions)
    (out1 err1 out2 err2 : String) (resp1 resp2 : ClaudeCLIResponse)
    (hu : u1 ≠ u2)
    (hp1 : env.parse out1 = .ok resp1) (he1 : resp1.is_error = false)
    (hid1 : resp1.session_id = u1)
    (hp2 : env.parse out2 = .ok resp2) (he2 : resp2.is_error = false)
    (hid2 : resp2.session_id = u2) :
    createSessionArgs u1 options = ["--output-format", "json", "--session-id", u1] ++
      (match options.model with | some m => ["--model", m] | none => []) ∧
    createSessionArgs u2 options = ["--output-format", "json", "--session-id", u2] ++
      (match options.model with | some m => ["--model", m] | none => []) ∧
    createSession a env u1 context options (.close 0) out1 err1 = .ok u1 ∧
    createSession a env u2 context options (.close 0) out2 err2 = .ok u2 ∧
    u1 ≠ u2 := by
  refine ⟨rfl, rfl, ?_, ?_, hu⟩
  · rw [createSession_close_zero, hp1]
    simp [he1, hid1]
  · rw [createSession_close_zero, hp2]
    simp [he2, hid2]

/-- Witness for `createSession_fresh_uuid_distinct_ids`: a CLI that echoes the
requested identifier yields two distinct session ids for the same context. -/
theorem createSession_fresh_uuid_distinct_ids_witness :
    createSession ⟨"claude", 30000, 10485760⟩
      { parse := fun out => .ok { is_error := false, session_id := out, result := "hi" }
        extractContent := fun r => r.result
        tokenUsage := fun _ => ⟨0, 0, 0⟩
        defaultModel := "claude-3-5-sonnet-20241022" }
      "uuid-a" "shared context" ⟨none, none⟩ (.close 0) "uuid-a" "" = .ok "uuid-a" ∧
    createSession ⟨"claude", 30000, 10485760⟩
      { parse := fun out => .ok { is_error := false, session_id := out, result := "hi" }
        extractContent := fun r => r.result
        tokenUsage := fun _ => ⟨0, 0, 0⟩
        defaultModel := "claude-3-5-sonnet-20241022" }
      "uuid-b" "shared context" ⟨none, none⟩ (.close 0) "uuid-b" "" = .ok "uuid-b" ∧
    ("uuid-a" : String) ≠ "uuid-b" := by
  have h := createSession_fresh_uuid_distinct_ids ⟨"claude", 30000, 10485760⟩
    { parse := fun out => .ok { is_error := false, session_id := out, result := "hi" }
      extractContent := fun r => r.result
      tokenUsage := fun _ => ⟨0, 0, 0⟩
      defaultModel := "claude-3-5-sonnet-20241022" }
    "uuid-a" "uuid-b" "shared context" ⟨none, none⟩ "uuid-a" "" "uuid-b" ""
    { is_error := false, session_id := "uuid-a", result := "hi" }
    { is_error := false, session_id := "uuid-b", result := "hi" }
    (by decide) rfl rfl rfl rfl rfl rfl
  exact ⟨h.2.2.1, h.2.2.2.1, h.2.2.2.2⟩

/-- The prompt options both probes pass: `maxTokens` 10 and temperature 0. -/
def probeOptions : PromptOptions :=
  { model := none, maxTokens := some 10, temperature := some 0 }

/-- The minimal probe prompt `validateSession` sends. -/
def validateSessionPrompt : String :=
  "Respond with just \"OK\" to confirm session is working."

/-- The record `validateSession` resolves to (`{valid, error?, responseTime?}`). -/
structure SessionValidation where
  valid : Bool
  error : Option String
  responseTime : Nat
deriving DecidableEq

/-- Embedding of `ClaudeCLIAdapter.validateSession`: sends the minimal probe
prompt through `sendPrompt` on the given session; on success, validity is
whether the lowercased response content contains "ok"; on any probe failure
the method catches the error and resolves (it is total — never rejects) with
`valid = false` and the failure message. The elapsed wall-clock time is an
input. -/
def validateSession (a : ClaudeCLIAdapter) (env : Env) (sessionId : String)
    (ev : SpawnEvent) (stdout stderr : String) (responseTime : Nat) :
    SessionValidation :=
  match sendPrompt a env (some sessionId) validateSessionPrompt probeOptions ev stdout stderr with
  | .ok testResponse =>
    { valid := containsSubstr (jsToLower testResponse.content) "ok"
      error := none
      responseTime := responseTime }
  | .error e =>
    { valid := false
      error := some (jsMessage e)
      responseTime := responseTime }

/-- C4: when the probe prompt succeeds, `validateSession` reports
`valid = true` exactly when the probe response content, lowercased, contains
the substring "ok", and it reports no error. -/
theorem validateSession_valid_iff_ok_substring (a : ClaudeCLIAdapter) (env : Env)
    (sessionId : String) (ev : SpawnEvent) (stdout stderr : String)
    (responseTime : Nat) (r : ProviderResponse)
    (h : sendPrompt a env (some sessionId) validateSessionPrompt probeOptions ev stdout stderr = .ok r) :
    (validateSession a env sessionId ev stdout stderr responseTime).valid =
      containsSubstr (jsToLower r.content) "ok" ∧
    (validateSession a env sessionId ev stdout stderr responseTime).error = none := by
  unfold validateSession
  rw [h]
  exact ⟨rfl, rfl⟩

/-- Witness for `validateSession_valid_iff_ok_substring`: a probe answering
"OK" makes the session valid. -/
theorem validateSession_valid_iff_ok_substring_witness :
    (validateSession ⟨"claude", 30000, 10485760⟩
      { parse := fun _ => .ok { is_error := false, session_id := "sid", result := "OK" }
        extractContent := fun r => r.result
        tokenUsage := fun _ => ⟨1, 1, 2⟩
        defaultModel := "claude-3-5-sonnet-20241022" }
      "sid" (.close 0) "out" "" 5).valid = true := by
  have h := validateSession_valid_iff_ok_substring ⟨"claude", 30000, 10485760⟩
    { parse := fun _ => .ok { is_error := false, session_id := "sid", result := "OK" }
      extractContent := fun r => r.result
      tokenUsage := fun _ => ⟨1, 1, 2⟩
      defaultModel := "claude-3-5-sonnet-20241022" }
    "sid" (.close 0) "out" "" 5
    { content := "OK"
      tokenUsage := ⟨1, 1, 2⟩
      metadata := { sessionId := "sid", model := "claude-3-5-sonnet-20241022", jsonMode := true }
      truncated := false
      stopReason := "end_turn" }
    rfl
  rw [h.1]
  decide

/-- C7: `validateSession` never rejects: whenever the underlying probe call
fails with a thrown value `e`, it resolves to the record with `valid = false`
and `error` set to the failure's message, matching the `{valid, error?}`
contract shape. (Resolution on every input is the totality of the embedded
function, which mirrors the source's try/catch whose catch clause returns.) -/
theorem validateSession_never_rejects (a : ClaudeCLIAdapter) (env : Env)
    (sessionId : String) (ev : SpawnEvent) (stdout stderr : String)
    (responseTime : Nat) (e : JSError)
    (h : sendPrompt a env (some sessionId) validateSessionPrompt probeOptions ev stdout stderr = .error e) :
    validateSession a env sessionId ev stdout stderr responseTime =
      { valid := false, error := some (jsMessage e), responseTime := responseTime } := by
  unfold validateSession
  rw [h]

/-- Witness for `validateSession_never_rejects`: a probe whose child process
has no accessible stdin resolves to an invalid-session record carrying the
enhanced failure message. -/
theorem validateSession_never_rejects_witness :
    validateSession ⟨"claude", 30000, 10485760⟩
      { parse := fun _ => .ok { is_error := false, session_id := "sid", result := "OK" }
        extractContent := fun r => r.result
        tokenUsage := fun _ => ⟨1, 1, 2⟩
        defaultModel := "claude-3-5-sonnet-20241022" }
      "sid" .noStdin "out" "" 7 =
      { valid := false
        error := some "Failed to send prompt to Claude CLI: Failed to access stdin of Claude CLI process"
        responseTime := 7 } := by
  have h := validateSession_never_rejects ⟨"claude", 30000, 10485760⟩
    { parse := fun _ => .ok { is_error := false, session_id := "sid", result := "OK" }
      extractContent := fun r => r.result
      tokenUsage := fun _ => ⟨1, 1, 2⟩
      defaultModel := "claude-3-5-sonnet-20241022" }
    "sid" .noStdin "out" "" 7
    (.error "Failed to send prompt to Claude CLI: Failed to access stdin of Claude CLI process")
    (by rfl)
  exact h

/-- The record `getHealth` resolves to (`{healthy, responseTimeMs, error?}`). -/
structure ProviderHealth where
  healthy : Bool
  responseTimeMs : Nat
  error : Option String
deriving DecidableEq

/-- The minimal probe prompt `getHealth` sends. -/
def healthProbePrompt : String := "Say \"OK\""

/-- Embedding of `ClaudeCLIAdapter.getHealth`: when the availability check
fails it resolves unhealthy with a fixed message; otherwise it sends the
minimal probe through `sendPrompt` and resolves healthy exactly when that call
resolves — the probe's content is NOT inspected. On a probe failure the catch
clause resolves (never rejects) with the failure message. The elapsed times of
the availability check and the whole call are inputs. -/
def getHealth (a : ClaudeCLIAdapter) (env : Env) (available : Bool)
    (ev : SpawnEvent) (stdout stderr : String)
    (availElapsed totalElapsed : Nat) : ProviderHealth :=
  if available then
    match sendPrompt a env none healthProbePrompt probeOptions ev stdout stderr with
    | .ok _ =>
      { healthy := true, responseTimeMs := totalElapsed, error := none }
    | .error e =>
      { healthy := false, responseTimeMs := totalElapsed, error := some (jsMessage e) }
  else
    { healthy := false
      responseTimeMs := availElapsed
      error := some "Claude CLI not found or not responding" }

/-- C8 refuted: a successful probe whose content is "FAIL" — which does not
contain "ok" in any casing — still yields `healthy = true`: `getHealth` does
not use the "ok" substring as its validity signal. -/
theorem getHealth_ignores_ok_substring_counterexample :
    (getHealth ⟨"claude", 30000, 10485760⟩
      { parse := fun _ => .ok { is_error := false, session_id := "sid", result := "FAIL" }
        extractContent := fun r => r.result
        tokenUsage := fun _ => ⟨1, 1, 2⟩
        defaultModel := "claude-3-5-sonnet-20241022" }
      true (.close 0) "out" "" 1 2).healthy = true ∧
    containsSubstr (jsToLower "FAIL") "ok" = false := by
  refine ⟨rfl, by decide⟩

/-- C8 amended: `getHealth` sends the minimal probe prompt and reports
`healthy = true` exactly when that probe call resolves, regardless of the
response content; when the CLI is unavailable or the probe fails it resolves
(never rejects) to `healthy = false` with the elapsed time and an error
description. -/
theorem getHealth_probe_resolution_determines_health (a : ClaudeCLIAdapter)
    (env : Env) (ev : SpawnEvent) (stdout stderr : String) (t1 t2 : Nat) :
    (getHealth a env false ev stdout stderr t1 t2 =
      { healthy := false
        responseTimeMs := t1
        error := some "Claude CLI not found or not responding" }) ∧
    (∀ r, sendPrompt a env none healthProbePrompt probeOptions ev stdout stderr = .ok r →
      getHealth a env true ev stdout stderr t1 t2 =
        { healthy := true, responseTimeMs := t2, error := none }) ∧
    (∀ e, sendPrompt a env none healthProbePrompt probeOptions ev stdout stderr = .error e →
      getHealth a env true ev stdout stderr t1 t2 =
        { healthy := false, responseTimeMs := t2, error := some (jsMessage e) }) := by
  refine ⟨rfl, ?_, ?_⟩
  · intro r h
    unfold getHealth
    rw [if_pos rfl, h]
  · intro e h
    unfold getHealth
    rw [if_pos rfl, h]

/-- Witness for `getHealth_probe_resolution_determines_health`: a resolving
probe yields a healthy report with the total elapsed time. -/
theorem getHealth_probe_resolution_determines_health_witness :
    getHealth ⟨"claude", 30000, 10485760⟩
      { parse := fun _ => .ok { is_error := false, session_id := "sid", result := "OK" }
        extractContent := fun r => r.result
        tokenUsage := fun _ => ⟨1, 1, 2⟩
        defaultModel := "claude-3-5-sonnet-20241022" }
      true (.close 0) "out" "" 1 2 =
      { healthy := true, responseTimeMs := 2, error := none } := by
  have h := (getHealth_probe_resolution_determines_health ⟨"claude", 30000, 10485760⟩
    { parse := fun _ => .ok { is_error := false, session_id := "sid", result := "OK" }
      extractContent := fun r => r.result
      tokenUsage := fun _ => ⟨1, 1, 2⟩
      defaultModel := "claude-3-5-sonnet-20241022" }
    (.close 0) "out" "" 1 2).2.1
    { content := "OK"
      tokenUsage := ⟨1, 1, 2⟩
      metadata := { sessionId := "sid", model := "claude-3-5-sonnet-20241022", jsonMode := true }
      truncated := false
      stopReason := "end_turn" }
    rfl
  exact h

/-- An observable side effect of an adapter method: a CLI invocation through
`spawn`, one through `exec`, or a logger call. -/
inductive Effect where
  | spawnProc (args : List String) (input : String)
  | execCmd (command : String)
  | log (message : String)
deriving DecidableEq

/-- Whether an effect is a pure logger call. -/
def Effect.isLog : Effect → Bool
  | .log _ => true
  | _ => false

/-- Embedding of `ClaudeCLIAdapter.destroySession`: the method body consists of
two logger calls and nothing else — no CLI invocation, no mutation (the class
has only `readonly` fields), no throw — and it resolves with `undefined`. The
effect list records the observable actions in order. -/
def destroySession (sessionId : String) : List Effect × Except JSError Unit :=
  ([Effect.log "Destroying Claude CLI session",
    Effect.log "Claude CLI session destroyed"],
   .ok ())

/-- C9: for every session identifier, `destroySession` performs only logging
effects (in particular no provider invocation) and always resolves. -/
theorem destroySession_pure_logging (sessionId : String) :
    (destroySession sessionId).1.all Effect.isLog = true ∧
    (destroySession sessionId).2 = .ok () :=
  ⟨rfl, rfl⟩
